import Mathlib

/-!
Shallow embedding of `src/script.js` (a live ring-modulation Web Audio patch):
the dBFS-to-linear-gain conversion `db2a`, the startup values of the three
automatable parameters, the cancel-then-linear-ramp automation performed by the
two slider input listeners, and the on/off toggle state machine of the
transport button.  Slider values, times and samples are modelled over a linear
ordered field (instantiated at `ℚ` or `ℝ`); the host AudioParam automation
semantics (cancel pending events, then ramp linearly from the instantaneous
value to the target over 10 ms) follow the spec's description of the
`AutomationEvent` contract, since the Web Audio runtime is an external
collaborator.
-/

/-- Context lifecycle state (`AudioContext.state`): `suspended` or `running`. -/
inductive CtxState where
  | suspended
  | running
deriving DecidableEq

/-- Host gating invariant of the audio context: no sample leaves the graph
while the context is suspended; while running, samples pass through. -/
def contextOutput (st : CtxState) (sample : ℝ) : ℝ :=
  match st with
  | .suspended => 0
  | .running => sample

/-- Conversion of decibels full scale to linear amplitude gain, from
`src/script.js` line 16: `10**(dBFS / 20)`. -/
noncomputable def db2a (dBFS : ℝ) : ℝ :=
  (10 : ℝ) ^ (dBFS / 20)

/-- Conversion of MIDI note numbers to frequency in Hz, from `src/script.js`
line 21: `440 * 2 ** ((midiNote - 69) / 12)`. -/
noncomputable def m2f (midiNote : ℝ) : ℝ :=
  440 * (2 : ℝ) ^ ((midiNote - 69) / 12)

/-- State of one automatable AudioParam under the cancel-then-ramp discipline:
its value is `v0` up to `startT`, ramps linearly to `target` on
`[startT, endT]`, and is `target` from `endT` on. -/
structure RampState (α : Type) where
  v0 : α
  startT : α
  target : α
  endT : α

/-- A parameter holding the constant value `v` with no ramp in progress
(the state of each AudioParam right after graph construction). -/
def constRamp {α : Type} [LinearOrderedField α] (v : α) : RampState α :=
  { v0 := v, startT := 0, target := v, endT := 0 }

/-- Instantaneous value of an automated parameter at time `t`. -/
def rampValue {α : Type} [LinearOrderedField α] (r : RampState α) (t : α) : α :=
  if t ≤ r.startT then r.v0
  else if t < r.endT then
    r.v0 + (r.target - r.v0) * (t - r.startT) / (r.endT - r.startT)
  else r.target

/-- Effect of one slider event on its AudioParam, as both listeners perform it
(`cancelScheduledValues(now)` followed by
`linearRampToValueAtTime(newValue, now + 0.01)`): the pending ramp is
discarded and a fresh 10 ms linear ramp starts from the parameter's
instantaneous value toward the new target. -/
def applyUpdate {α : Type} [LinearOrderedField α] (r : RampState α) (now newTarget : α) :
    RampState α :=
  { v0 := rampValue r now, startT := now, target := newTarget, endT := now + 1 / 100 }

/-- The three automatable parameters of the patch: `modFreq.offset` (oscillator
rate), `modulationGainNode.gain` (modulation depth), `masterGainNode.gain`
(output gain). -/
inductive AutoParam where
  | rateOffset
  | depthGain
  | outputGain
deriving DecidableEq

/-- A scheduling call issued against an AudioParam:
`cancelScheduledValues(t)` or `linearRampToValueAtTime(v, t)`. -/
inductive Op (α : Type) where
  | cancel (t : α)
  | ramp (v : α) (t : α)
deriving DecidableEq

/-- Scheduling calls issued by the modulation-rate slider listener
(`src/script.js` lines 150-159): cancel on `modFreq.offset` at `now`, then a
linear ramp to the raw slider value at `now + 0.01`.  No validation or
clamping is applied to the value. -/
def modSliderOps {α : Type} [LinearOrderedField α] (now v : α) : List (AutoParam × Op α) :=
  [(AutoParam.rateOffset, Op.cancel now),
   (AutoParam.rateOffset, Op.ramp v (now + 1 / 100))]

/-- Scheduling calls issued by the output-gain slider listener
(`src/script.js` lines 166-173): cancel on `masterGainNode.gain` at `now`,
then a linear ramp to `db2a(newDBFS)` at `now + 0.01`. -/
noncomputable def gainSliderOps (now v : ℝ) : List (AutoParam × Op ℝ) :=
  [(AutoParam.outputGain, Op.cancel now),
   (AutoParam.outputGain, Op.ramp (db2a v) (now + 1 / 100))]

/-- The update handler wired to each automatable parameter: the rate offset
and the output gain each have a slider listener; nothing in the program
installs a handler for the modulation-depth gain. -/
noncomputable def handlerFor (p : AutoParam) : Option (ℝ → ℝ → List (AutoParam × Op ℝ)) :=
  match p with
  | .rateOffset => some (fun now v => modSliderOps now v)
  | .depthGain => none
  | .outputGain => some (fun now v => gainSliderOps now v)

/-- Device request issued by the toggle handler: `suspend()` or `resume()`. -/
inductive DevReq where
  | suspendCtx
  | resumeCtx
deriving DecidableEq

/-- One observable action of the on/off click handler, in program order. -/
inductive Effect where
  | setLabel (s : String)
  | setFlag (b : Bool)
  | deviceRequest (r : DevReq)
deriving DecidableEq

/-- Action sequence of the on/off click listener (`src/script.js` lines
132-143), branching on the current `audioOn` flag: the button label and the
flag are written first, and only then is the suspend/resume promise awaited. -/
def toggleEffects (audioOn : Bool) : List Effect :=
  if audioOn then
    [Effect.setLabel "Turn Off", Effect.setFlag false, Effect.deviceRequest DevReq.suspendCtx]
  else
    [Effect.setLabel "Turn On", Effect.setFlag true, Effect.deviceRequest DevReq.resumeCtx]

/-- UI-facing transport state: the `audioOn` flag, the button label, and the
audio context's actual state. -/
structure TransportState where
  audioOn : Bool
  label : String
  ctx : CtxState
deriving DecidableEq

/-- Interpretation of one handler action on the transport state; a device
request only changes the context state when the device accepts it
(`deviceOk`), and a rejected promise changes nothing. -/
def applyEffect (deviceOk : Bool) (s : TransportState) : Effect → TransportState
  | .setLabel l => { s with label := l }
  | .setFlag b => { s with audioOn := b }
  | .deviceRequest .suspendCtx => if deviceOk then { s with ctx := .suspended } else s
  | .deviceRequest .resumeCtx => if deviceOk then { s with ctx := .running } else s

/-- Net result of one click of the on/off button: run the handler's actions in
program order against the current transport state. -/
def runToggle (s : TransportState) (deviceOk : Bool) : TransportState :=
  (toggleEffects s.audioOn).foldl (applyEffect deviceOk) s

/-- Startup synchronisation of the button with the context (`src/script.js`
lines 111-117): `audioOn` starts `false`; if the context is found running the
flag is set and the label becomes `"Off"`, otherwise the HTML's label is left
as it was. -/
def startupSync (ctxRunning : Bool) (label0 : String) : Bool × String :=
  if ctxRunning then (true, "Off") else (false, label0)

/-- Microphone capture constraints handed to `getUserMedia`
(`src/script.js` lines 31-37). -/
structure MicConstraints where
  echoCancellation : Bool
  noiseSuppression : Bool
  autoGainControl : Bool
deriving DecidableEq

/-- The constraints the program actually requests: all three adaptive
processing stages disabled. -/
def micConstraints : MicConstraints :=
  { echoCancellation := false, noiseSuppression := false, autoGainControl := false }

/-- Ways microphone acquisition can fail in the host environment. -/
inductive AcqFailure where
  | permissionDenied
  | noDevice
deriving DecidableEq

/-- Whole-program mutable state after graph construction: the transport
(button flag, label, context state) and the three automatable parameters. -/
structure ProgState where
  transport : TransportState
  rateParam : RampState ℝ
  depthParam : RampState ℝ
  masterParam : RampState ℝ

/-- State right after the top-level script has run with `label0` as the
button's HTML label: the context was explicitly suspended (line 9), the
startup check therefore leaves `audioOn = false` and the label untouched,
`modFreq.offset = 5`, `modulationGainNode.gain = 0`,
`masterGainNode.gain = 1` (lines 57, 68, 73). -/
noncomputable def initProgState (label0 : String) : ProgState :=
  { transport :=
      { audioOn := (startupSync false label0).1
        label := (startupSync false label0).2
        ctx := CtxState.suspended }
    rateParam := constRamp 5
    depthParam := constRamp 0
    masterParam := constRamp 1 }

/-- Top-level construction: the awaited `getUserMedia` call precedes every
node of the graph, so an acquisition failure aborts the script with that
failure and no program state is ever built; on success the graph comes up in
its initial state. -/
noncomputable def buildGraph (label0 : String) (acq : Except AcqFailure Unit) :
    Except AcqFailure ProgState :=
  match acq with
  | .error e => .error e
  | .ok _ => .ok (initProgState label0)

/-- A UI event the program reacts to: a click of the on/off button (with the
device's verdict on the resulting suspend/resume request), or an input event
on one of the two sliders carrying the context time and the numeric value. -/
inductive UiEvent where
  | toggleClick (deviceOk : Bool)
  | modInput (now v : ℝ)
  | gainInput (now v : ℝ)

/-- Dispatch of one UI event to its listener (`src/script.js` lines 132-173):
the toggle runs the on/off handler; the rate slider cancels and ramps
`modFreq.offset` to the raw value; the gain slider cancels and ramps
`masterGainNode.gain` to `db2a` of the value.  No listener touches
`modulationGainNode.gain`. -/
noncomputable def step (s : ProgState) : UiEvent → ProgState
  | .toggleClick ok => { s with transport := runToggle s.transport ok }
  | .modInput now v => { s with rateParam := applyUpdate s.rateParam now v }
  | .gainInput now v => { s with masterParam := applyUpdate s.masterParam now (db2a v) }

/-- The program state after an arbitrary sequence of UI events following
construction. -/
noncomputable def run (label0 : String) (evs : List UiEvent) : ProgState :=
  evs.foldl step (initProgState label0)

/-- Modelled from the spec: the signal-graph wiring of the student work area
(`src/script.js` lines 76-104) is left empty in the source, so the Ring
Modulator Stage is taken from spec section 4.3:
`output[t] = carrier[t] * oscillator[t] * depth(t)`. -/
def ringModStage (carrier oscillator depth : ℝ) : ℝ :=
  carrier * oscillator * depth

/-- Semantics of a scheduling call against one AudioParam `p`: a cancel at `t`
discards the pending ramp and freezes the parameter at its instantaneous
value; a linear ramp call keeps the anchor point and ramps toward `v`,
reaching it at `t`.  Calls addressed to another parameter leave `p` alone. -/
def applyOp {α : Type} [LinearOrderedField α] (p : AutoParam) (r : RampState α) :
    AutoParam × Op α → RampState α
  | (q, Op.cancel t) =>
      if q = p then
        { v0 := rampValue r t, startT := t, target := rampValue r t, endT := t }
      else r
  | (q, Op.ramp v t) =>
      if q = p then { v0 := r.v0, startT := r.startT, target := v, endT := t } else r

/-- Folding a whole list of scheduling calls over the state of parameter `p`. -/
def applyOps {α : Type} [LinearOrderedField α] (p : AutoParam) (r : RampState α)
    (ops : List (AutoParam × Op α)) : RampState α :=
  ops.foldl (applyOp p) r

theorem rampValue_constRamp {α : Type} [LinearOrderedField α] (v t : α) :
    rampValue (constRamp v) t = v := by
  unfold rampValue constRamp
  by_cases h1 : t ≤ (0 : α)
  · rw [if_pos h1]
  · rw [if_neg h1]
    by_cases h2 : t < (0 : α)
    · rw [if_pos h2]
      simp
    · rw [if_neg h2]

theorem rampValue_after_end {α : Type} [LinearOrderedField α] (r : RampState α) (t : α)
    (hstart : r.startT < t) (hend : r.endT ≤ t) : rampValue r t = r.target := by
  unfold rampValue
  rw [if_neg (not_le.mpr hstart), if_neg (not_lt.mpr hend)]

theorem rampValue_bounds {α : Type} [LinearOrderedField α] (r : RampState α) (t : α) :
    min r.v0 r.target ≤ rampValue r t ∧ rampValue r t ≤ max r.v0 r.target := by
  unfold rampValue
  by_cases hst : t ≤ r.startT
  · rw [if_pos hst]
    exact ⟨min_le_left _ _, le_max_left _ _⟩
  · rw [if_neg hst]
    push_neg at hst
    by_cases hen : t < r.endT
    · rw [if_pos hen]
      have hpos : (0 : α) < r.endT - r.startT := by linarith
      have hd0 : (0 : α) ≤ (t - r.startT) / (r.endT - r.startT) :=
        div_nonneg (by linarith) (by linarith)
      have hd1 : (t - r.startT) / (r.endT - r.startT) ≤ 1 :=
        (div_le_one hpos).mpr (by linarith)
      rw [mul_div_assoc]
      rcases le_total r.v0 r.target with h | h
      · rw [min_eq_left h, max_eq_right h]
        constructor
        · nlinarith
        · nlinarith
      · rw [min_eq_right h, max_eq_left h]
        constructor
        · nlinarith
        · nlinarith
    · rw [if_neg hen]
      exact ⟨min_le_right _ _, le_max_right _ _⟩

/-- C1: in the spec-modelled graph wiring, the Ring Modulator Stage outputs
`carrier * oscillator * depth` for every depth in `[0, 1]`, and at depth `0`
the stage outputs `0` for every carrier/oscillator sample pair, silencing the
carrier rather than passing it dry. -/
theorem ring_mod_stage_spec (g c o : ℝ) (h0 : 0 ≤ g) (h1 : g ≤ 1) :
    ringModStage c o g = c * o * g ∧ ringModStage c o 0 = 0 := by
  constructor
  · rfl
  · unfold ringModStage
    ring

/-- Witness for `ring_mod_stage_spec` at depth 1 on the sample pair (2, 3). -/
theorem ring_mod_stage_spec_witness :
    ((0 : ℝ) ≤ 1 ∧ (1 : ℝ) ≤ 1) ∧
    ringModStage 2 3 1 = 2 * 3 * 1 ∧ ringModStage 2 3 0 = 0 :=
  ⟨⟨zero_le_one, le_refl 1⟩, ring_mod_stage_spec 1 2 3 zero_le_one (le_refl 1)⟩

/-- C3: `db2a` computes `10 ^ (d / 20)`, returns exactly `1` at `d = 0`, and
is strictly increasing. -/
theorem db2a_spec :
    (∀ d : ℝ, db2a d = (10 : ℝ) ^ (d / 20)) ∧ db2a 0 = 1 ∧
    ∀ a b : ℝ, a < b → db2a a < db2a b := by
  refine ⟨fun d => rfl, ?_, ?_⟩
  · unfold db2a
    norm_num
  · intro a b hab
    unfold db2a
    rw [Real.rpow_lt_rpow_left_iff (by norm_num : (1 : ℝ) < 10)]
    linarith

/-- Witness for `db2a_spec`: strict monotonicity applied at 0 < 20. -/
theorem db2a_spec_witness : (0 : ℝ) < 20 ∧ db2a 0 < db2a 20 :=
  ⟨by norm_num, db2a_spec.2.2 0 20 (by norm_num)⟩

/-- C5: right after construction and before any user action, the context is
suspended (so the sink receives only zeros), the oscillator rate is 5 Hz, the
modulation depth is 0, the output gain is 1, and the UI flag reports audio
off. -/
theorem initial_state_spec :
    ∀ label0 : String,
      (initProgState label0).transport.ctx = CtxState.suspended ∧
      (∀ sample : ℝ, contextOutput (initProgState label0).transport.ctx sample = 0) ∧
      (∀ t : ℝ, rampValue (initProgState label0).rateParam t = 5) ∧
      (∀ t : ℝ, rampValue (initProgState label0).depthParam t = 0) ∧
      (∀ t : ℝ, rampValue (initProgState label0).masterParam t = 1) ∧
      (initProgState label0).transport.audioOn = false := by
  intro label0
  refine ⟨rfl, fun _ => rfl, fun t => ?_, fun t => ?_, fun t => ?_, rfl⟩
  · exact rampValue_constRamp 5 t
  · exact rampValue_constRamp 0 t
  · exact rampValue_constRamp 1 t

/-- C8: the carrier stream is requested with echo cancellation, noise
suppression and automatic gain control all disabled, and an acquisition
failure aborts construction, propagating the failure instead of building a
graph around silence or a dummy source. -/
theorem carrier_acquisition_spec :
    micConstraints.echoCancellation = false ∧
    micConstraints.noiseSuppression = false ∧
    micConstraints.autoGainControl = false ∧
    (∀ label0 e, buildGraph label0 (Except.error e) = Except.error e) :=
  ⟨rfl, rfl, rfl, fun _ _ => rfl⟩

/-- C10: each toggle click writes the button label and the `audioOn` flag
before issuing the device request, with label `"Turn Off"` when stopping and
`"Turn On"` when starting, while the startup check instead writes `"Off"`
when it finds the context already running. -/
theorem toggle_label_order_spec :
    toggleEffects true =
      [Effect.setLabel "Turn Off", Effect.setFlag false,
       Effect.deviceRequest DevReq.suspendCtx] ∧
    toggleEffects false =
      [Effect.setLabel "Turn On", Effect.setFlag true,
       Effect.deviceRequest DevReq.resumeCtx] ∧
    ∀ label0 : String, startupSync true label0 = (true, "Off") :=
  ⟨rfl, rfl, fun _ => rfl⟩

/-- C2 as stated fails on the code: the program installs update handlers only
for the oscillator rate and the output gain; no handler exists for the
modulation-depth parameter, so the cancel-then-ramp treatment is not applied
to all three automatable parameters. -/
theorem depth_handler_missing_cex :
    handlerFor AutoParam.depthGain = none ∧
    (handlerFor AutoParam.rateOffset).isSome = true ∧
    (handlerFor AutoParam.outputGain).isSome = true :=
  ⟨rfl, rfl, rfl⟩

/-- C2 amended: for the two parameters that have update handlers - the
oscillator rate via `modFreq.offset` and the output gain - every update first
cancels pending changes at `now` and then ramps linearly from the
instantaneous value to the new target (the raw value for the rate, `db2a` of
it for the gain), reaching it at `now + 10 ms`; the modulation depth has no
update handler at all. -/
theorem automation_uniform_amended :
    ∀ (now v : ℝ) (r : RampState ℝ),
      applyOps AutoParam.rateOffset r (modSliderOps now v) = applyUpdate r now v ∧
      applyOps AutoParam.outputGain r (gainSliderOps now v) =
        applyUpdate r now (db2a v) ∧
      handlerFor AutoParam.rateOffset = some (fun n x => modSliderOps n x) ∧
      handlerFor AutoParam.outputGain = some (fun n x => gainSliderOps n x) ∧
      handlerFor AutoParam.depthGain = none :=
  fun _ _ _ => ⟨rfl, rfl, rfl, rfl, rfl⟩

/-- C4 as stated fails on the code: starting from the on state with label
`"Off"` and a running context, a toggle whose suspend request the device
rejects still flips the flag to off and rewrites the label, leaving only the
context state unchanged. -/
theorem toggle_failure_flips_state_cex :
    (runToggle { audioOn := true, label := "Off", ctx := CtxState.running }
        false).audioOn ≠ true ∧
    (runToggle { audioOn := true, label := "Off", ctx := CtxState.running }
        false).label ≠ "Off" ∧
    (runToggle { audioOn := true, label := "Off", ctx := CtxState.running }
        false).ctx = CtxState.running := by
  refine ⟨?_, ?_, rfl⟩ <;> decide

/-- C4 amended: the click handler flips `audioOn` and rewrites the label
before awaiting the device request, so a rejected suspend/resume leaves the
context state unchanged but the flag and label already flipped; a retry
remains possible because the next toggle issues the opposite request. -/
theorem toggle_failure_amended :
    ∀ s : TransportState,
      (runToggle s false).audioOn = !s.audioOn ∧
      (runToggle s false).label = (if s.audioOn then "Turn Off" else "Turn On") ∧
      (runToggle s false).ctx = s.ctx := by
  intro s
  cases h : s.audioOn <;>
    simp [runToggle, toggleEffects, applyEffect, h]

/-- C6: when a second rate-update event arrives before the first 10 ms ramp
completes, the cancel-then-reschedule discipline makes the parameter equal
the second target at the second event's completion time and forever after,
and between the second event and its completion the value stays between the
value held at the second event and the second target - no overshoot and no
leftover intermediate value from the cancelled first ramp. -/
theorem rapid_rate_updates (r : RampState ℚ) (t1 r1 t2 r2 : ℚ)
    (h1 : t1 ≤ t2) (h2 : t2 < t1 + 1 / 100) :
    (∀ t, t2 + 1 / 100 ≤ t →
        rampValue (applyUpdate (applyUpdate r t1 r1) t2 r2) t = r2) ∧
    (∀ t, min (rampValue (applyUpdate r t1 r1) t2) r2 ≤
            rampValue (applyUpdate (applyUpdate r t1 r1) t2 r2) t ∧
          rampValue (applyUpdate (applyUpdate r t1 r1) t2 r2) t ≤
            max (rampValue (applyUpdate r t1 r1) t2) r2) := by
  constructor
  · intro t ht
    exact rampValue_after_end (applyUpdate (applyUpdate r t1 r1) t2 r2) t
      (show t2 < t by linarith) (show t2 + 1 / 100 ≤ t from ht)
  · intro t
    exact rampValue_bounds (applyUpdate (applyUpdate r t1 r1) t2 r2) t

/-- Witness for `rapid_rate_updates`: from the initial 5 Hz parameter, an
update to 7 Hz at t = 0 followed by an update to 12 Hz at t = 1/200 (within
the 10 ms window) leaves the rate at exactly 12 at t = 1/200 + 1/100. -/
theorem rapid_rate_updates_witness :
    ((0 : ℚ) ≤ 1 / 200 ∧ (1 / 200 : ℚ) < 0 + 1 / 100) ∧
    rampValue (applyUpdate (applyUpdate (constRamp (5 : ℚ)) 0 7) (1 / 200) 12)
      (1 / 200 + 1 / 100) = 12 := by
  refine ⟨⟨by norm_num, by norm_num⟩, ?_⟩
  exact (rapid_rate_updates (constRamp (5 : ℚ)) 0 7 (1 / 200) 12 (by norm_num)
    (by norm_num)).1 (1 / 200 + 1 / 100) le_rfl

/-- C7 as stated fails on the code: the rate slider listener applies no
rejection or clamping, so the out-of-range input -3 Hz is scheduled verbatim
as the target of the ramp handed to the automation calls. -/
theorem negative_rate_scheduled_cex :
    ((-3 : ℚ) < 0) ∧
    modSliderOps (0 : ℚ) (-3) =
      [(AutoParam.rateOffset, Op.cancel 0),
       (AutoParam.rateOffset, Op.ramp (-3) (0 + 1 / 100))] ∧
    (applyOps AutoParam.rateOffset (constRamp 5) (modSliderOps (0 : ℚ) (-3))).target
      = -3 := by
  refine ⟨by norm_num, rfl, rfl⟩

/-- C7 amended: the slider listeners hand the raw numeric input to the
automation calls with no validation or clamping, so an out-of-range value is
scheduled exactly as received as the new ramp target. -/
theorem no_input_validation_amended :
    ∀ now v : ℚ,
      modSliderOps now v =
        [(AutoParam.rateOffset, Op.cancel now),
         (AutoParam.rateOffset, Op.ramp v (now + 1 / 100))] ∧
      (applyOps AutoParam.rateOffset (constRamp 5) (modSliderOps now v)).target = v :=
  fun _ _ => ⟨rfl, rfl⟩

theorem foldl_step_depthParam (evs : List UiEvent) (s : ProgState) :
    (evs.foldl step s).depthParam = s.depthParam := by
  induction evs generalizing s with
  | nil => rfl
  | cons e es ih =>
    rw [List.foldl_cons, ih]
    cases e <;> rfl

/-- C9: no event handler in the program touches the modulation-depth gain:
after any sequence of UI events the depth parameter is exactly its
construction-time state, and its value is 0 at every time. -/
theorem depth_never_modified :
    ∀ (label0 : String) (evs : List UiEvent),
      (run label0 evs).depthParam = (initProgState label0).depthParam ∧
      ∀ t : ℝ, rampValue (run label0 evs).depthParam t = 0 := by
  intro label0 evs
  have h : (run label0 evs).depthParam = (initProgState label0).depthParam :=
    foldl_step_depthParam evs (initProgState label0)
  refine ⟨h, fun t => ?_⟩
  rw [h]
  exact rampValue_constRamp 0 t
